import Mathlib

/-!
Verification of the replicated command layer of the metadata coordinator
(`src/coordinator/command.go`).  The command payloads, `CommandName`,
`Apply` dispatch, the registry built by `init()` and the explicit
`Encode`/`Decode` pair of `CreateShardsCommand` are translated from the
source.  The `cluster.ClusterConfiguration` mutation methods, the consensus
engine's `AddPeer` primitive and the default structural serialisation live
outside this repository; they are modelled from the spec, as marked on each
definition.
-/

namespace Coordinator

/-- Modelled from the spec: a per-database user object
(name, database, permissions, password hash); `cluster.DbUser` is not part
of this repository. -/
structure DbUser where
  name : String
  db : String
  hash : String
  isAdmin : Bool
deriving DecidableEq, Repr

/-- Modelled from the spec: a cluster-wide administrator object;
`cluster.ClusterAdmin` is not part of this repository. -/
structure ClusterAdmin where
  name : String
  hash : String
deriving DecidableEq, Repr

/-- Modelled from the spec: a server descriptor (id, connection strings);
`cluster.ClusterServer` is not part of this repository. -/
structure ClusterServer where
  id : Nat
  connectionString : String
  protobufConnectionString : String
deriving DecidableEq, Repr

/-- Modelled from the spec: a new-shard descriptor submitted to shard
creation; `cluster.NewShardData` is not part of this repository. -/
structure NewShardData where
  id : Nat
  database : String
  serverIds : List Nat
deriving DecidableEq, Repr

/-- Modelled from the spec: a created shard with its server assignments
resolved by the configuration store; `cluster.ShardData` is not part of
this repository. -/
structure ShardData where
  id : Nat
  database : String
  serverIds : List Nat
deriving DecidableEq, Repr

/-- Modelled from the spec: conversion of a resolved shard back to the
descriptor form reported to the originating node. -/
def ShardData.ToNewShardData (sd : ShardData) : NewShardData :=
  { id := sd.id, database := sd.database, serverIds := sd.serverIds }

/-- Modelled from the spec: a registered standing (continuous) query. -/
structure ContinuousQuery where
  db : String
  id : Nat
  query : String
deriving DecidableEq, Repr

/-- Modelled from the spec: the in-memory cluster configuration store
(databases, users, shards, continuous queries); `cluster.ClusterConfiguration`
is not part of this repository and is exposed to commands only through its
mutation methods. -/
structure ClusterConfiguration where
  databases : List (String × Nat)
  dbUsers : List DbUser
  clusterAdmins : List ClusterAdmin
  servers : List ClusterServer
  continuousQueries : List ContinuousQuery
  cqTimestamp : Int
  shards : List ShardData
deriving DecidableEq, Repr

/-- Modelled from the spec: `CreateDatabase(name, replicationFactor)`;
re-issuing it for an existing database returns a defined stable error. -/
def ClusterConfiguration.CreateDatabase (cc : ClusterConfiguration)
    (name : String) (replicationFactor : Nat) :
    ClusterConfiguration × Option String :=
  if cc.databases.any (fun d => d.1 == name) then
    (cc, some "database already exists")
  else
    ({ cc with databases := cc.databases ++ [(name, replicationFactor)] }, none)

/-- Modelled from the spec: `DropDatabase(name)` drops the database and all
its shards, users and continuous queries. -/
def ClusterConfiguration.DropDatabase (cc : ClusterConfiguration)
    (name : String) : ClusterConfiguration × Option String :=
  if cc.databases.any (fun d => d.1 == name) then
    ({ cc with
        databases := cc.databases.filter (fun d => !(d.1 == name)),
        dbUsers := cc.dbUsers.filter (fun u => !(u.db == name)),
        continuousQueries := cc.continuousQueries.filter (fun q => !(q.db == name)),
        shards := cc.shards.filter (fun sh => !(sh.database == name)) }, none)
  else
    (cc, some "database does not exist")

/-- Modelled from the spec: `SaveDbUser(user)` upserts a per-database user;
its result is not captured by the command layer. -/
def ClusterConfiguration.SaveDbUser (cc : ClusterConfiguration)
    (u : DbUser) : ClusterConfiguration :=
  if cc.dbUsers.any (fun v => v.db == u.db && v.name == u.name) then
    { cc with dbUsers :=
        cc.dbUsers.map (fun v => if v.db == u.db && v.name == u.name then u else v) }
  else
    { cc with dbUsers := cc.dbUsers ++ [u] }

/-- Modelled from the spec: `ChangeDbUserPassword(db, user, hash)` updates
one user's credential. -/
def ClusterConfiguration.ChangeDbUserPassword (cc : ClusterConfiguration)
    (db username hash : String) : ClusterConfiguration × Option String :=
  if cc.dbUsers.any (fun v => v.db == db && v.name == username) then
    ({ cc with dbUsers :=
        cc.dbUsers.map (fun v =>
          if v.db == db && v.name == username then { v with hash := hash } else v) },
     none)
  else
    (cc, some "user not found")

/-- Modelled from the spec: `SaveClusterAdmin(admin)` upserts a cluster-wide
administrator; its result is not captured by the command layer. -/
def ClusterConfiguration.SaveClusterAdmin (cc : ClusterConfiguration)
    (u : ClusterAdmin) : ClusterConfiguration :=
  if cc.clusterAdmins.any (fun v => v.name == u.name) then
    { cc with clusterAdmins :=
        cc.clusterAdmins.map (fun v => if v.name == u.name then u else v) }
  else
    { cc with clusterAdmins := cc.clusterAdmins ++ [u] }

/-- Modelled from the spec: `AddPotentialServer(server)` registers a node as
a replication target; its result is not captured by the command layer. -/
def ClusterConfiguration.AddPotentialServer (cc : ClusterConfiguration)
    (s : ClusterServer) : ClusterConfiguration :=
  if cc.servers.any (fun v => v.id == s.id) then
    { cc with servers := cc.servers.map (fun v => if v.id == s.id then s else v) }
  else
    { cc with servers := cc.servers ++ [s] }

/-- Modelled from the spec: `CreateContinuousQuery(db, query)` registers a
standing query. -/
def ClusterConfiguration.CreateContinuousQuery (cc : ClusterConfiguration)
    (db query : String) : ClusterConfiguration × Option String :=
  ({ cc with continuousQueries :=
      cc.continuousQueries ++ [⟨db, cc.continuousQueries.length + 1, query⟩] },
   none)

/-- Modelled from the spec: `DeleteContinuousQuery(db, id)` removes a
standing query. -/
def ClusterConfiguration.DeleteContinuousQuery (cc : ClusterConfiguration)
    (db : String) (id : Nat) : ClusterConfiguration × Option String :=
  if cc.continuousQueries.any (fun q => q.db == db && q.id == id) then
    ({ cc with continuousQueries :=
        cc.continuousQueries.filter (fun q => !(q.db == db && q.id == id)) }, none)
  else
    (cc, some "continuous query not found")

/-- Modelled from the spec: `SetContinuousQueryTimestamp(ts)` records the
global high-water mark for continuous-query execution. -/
def ClusterConfiguration.SetContinuousQueryTimestamp (cc : ClusterConfiguration)
    (ts : Int) : ClusterConfiguration × Option String :=
  ({ cc with cqTimestamp := ts }, none)

/-- Modelled from the spec: resolution of one shard spec — server
assignments are filled in by the configuration store. -/
def ClusterConfiguration.resolveShard (cc : ClusterConfiguration)
    (spec : NewShardData) : ShardData :=
  { id := spec.id, database := spec.database,
    serverIds :=
      if spec.serverIds.isEmpty then cc.servers.map (fun s => s.id)
      else spec.serverIds }

/-- Modelled from the spec: `AddShards(shardSpecs) → (createdShards, error)`;
the method itself guarantees atomicity — either all requested shards are
created or none. -/
def ClusterConfiguration.AddShards (cc : ClusterConfiguration)
    (specs : List NewShardData) :
    ClusterConfiguration × List ShardData × Option String :=
  if specs.any (fun sp => !(cc.databases.any (fun d => d.1 == sp.database))) then
    (cc, [], some "shard spec references an unknown database")
  else
    ({ cc with shards := cc.shards ++ specs.map cc.resolveShard },
     specs.map cc.resolveShard, none)

/-- Modelled from the spec: `DropShard(shardId, serverIds)` removes a shard
from the specified servers, dropping the shard entirely when no owner
remains. -/
def ClusterConfiguration.DropShard (cc : ClusterConfiguration)
    (shardId : Nat) (serverIds : List Nat) : ClusterConfiguration × Option String :=
  if cc.shards.any (fun sh => sh.id == shardId) then
    ({ cc with shards :=
        (cc.shards.map (fun sh =>
          if sh.id == shardId then
            { sh with serverIds := sh.serverIds.filter (fun sid => !(serverIds.contains sid)) }
          else sh)).filter (fun sh => !(sh.id == shardId) || !sh.serverIds.isEmpty) },
     none)
  else
    (cc, some "shard not found")

/-- Modelled from the spec: one voting member of the consensus group as the
engine's peer-management primitive tracks it. -/
structure Peer where
  name : String
  connectionString : String
deriving DecidableEq, Repr

/-- Modelled from the spec: the consensus engine's peer-admission primitive
`AddPeer(name, connectionString)`; adding an already-present member is a
membership error returned to the proposer. -/
def addPeer (peers : List Peer) (name connectionString : String) :
    List Peer × Option String :=
  if peers.any (fun p => p.name == name) then
    (peers, some "duplicate peer")
  else
    (peers ++ [{ name := name, connectionString := connectionString }], none)

/-- The state visible to a command through the `raft.Server` handle: the
node's own name, the consensus engine's peer set, and the shared
configuration object carried as the apply context. -/
structure RaftServer where
  name : String
  peers : List Peer
  context : ClusterConfiguration
deriving DecidableEq, Repr

/-- The twelve command types of `command.go`, one constructor per concrete
Go struct, each carrying exactly that struct's payload fields. -/
inductive Command where
  | SetContinuousQueryTimestampCommand (timestamp : Int)
  | CreateContinuousQueryCommand (database query : String)
  | DeleteContinuousQueryCommand (database : String) (id : Nat)
  | DropDatabaseCommand (name : String)
  | CreateDatabaseCommand (name : String) (replicationFactor : Nat)
  | SaveDbUserCommand (user : DbUser)
  | ChangeDbUserPassword (database username hash : String)
  | SaveClusterAdminCommand (user : ClusterAdmin)
  | AddPotentialServerCommand (server : ClusterServer)
  | InfluxJoinCommand (name connectionString protobufConnectionString : String)
  | CreateShardsCommand (shards : List NewShardData)
  | DropShardCommand (shardId : Nat) (serverIds : List Nat)
deriving DecidableEq, Repr

/-- The `CommandName()` of each command type, literal for literal from the
source. -/
def Command.CommandName : Command → String
  | .SetContinuousQueryTimestampCommand _ => "set_cq_ts"
  | .CreateContinuousQueryCommand _ _ => "create_cq"
  | .DeleteContinuousQueryCommand _ _ => "delete_cq"
  | .DropDatabaseCommand _ => "drop_db"
  | .CreateDatabaseCommand _ _ => "create_db"
  | .SaveDbUserCommand _ => "save_db_user"
  | .ChangeDbUserPassword _ _ _ => "change_db_user_password"
  | .SaveClusterAdminCommand _ => "save_cluster_admin_user"
  | .AddPotentialServerCommand _ => "add_server"
  | .InfluxJoinCommand _ _ _ => "raft:join"
  | .CreateShardsCommand _ => "create_shards"
  | .DropShardCommand _ _ => "drop_shard"

/-- The possible `result` values of `Apply`: the Go `nil`, the literal byte
string returned by the join command, or the resolved shard descriptors
returned by shard creation. -/
inductive ApplyResult where
  | nil
  | bytes (s : String)
  | shards (l : List NewShardData)
deriving DecidableEq, Repr

/-- The `Apply(server)` step of each command type, translated case for case from the
source: each metadata command extracts the shared configuration from the
server's context, invokes its one mutation method with its own payload
fields and returns the method's error; the join command calls the engine's
`AddPeer` with the command's own name and connection string and returns the
byte string "join"; shard creation converts the created shards through
`ToNewShardData` on success. -/
def Command.Apply : Command → RaftServer → RaftServer × ApplyResult × Option String
  | .SetContinuousQueryTimestampCommand ts, server =>
      ({ server with context := (server.context.SetContinuousQueryTimestamp ts).1 },
       ApplyResult.nil, (server.context.SetContinuousQueryTimestamp ts).2)
  | .CreateContinuousQueryCommand db q, server =>
      ({ server with context := (server.context.CreateContinuousQuery db q).1 },
       ApplyResult.nil, (server.context.CreateContinuousQuery db q).2)
  | .DeleteContinuousQueryCommand db i, server =>
      ({ server with context := (server.context.DeleteContinuousQuery db i).1 },
       ApplyResult.nil, (server.context.DeleteContinuousQuery db i).2)
  | .DropDatabaseCommand n, server =>
      ({ server with context := (server.context.DropDatabase n).1 },
       ApplyResult.nil, (server.context.DropDatabase n).2)
  | .CreateDatabaseCommand n rf, server =>
      ({ server with context := (server.context.CreateDatabase n rf).1 },
       ApplyResult.nil, (server.context.CreateDatabase n rf).2)
  | .SaveDbUserCommand u, server =>
      ({ server with context := server.context.SaveDbUser u },
       ApplyResult.nil, none)
  | .ChangeDbUserPassword db un h, server =>
      ({ server with context := (server.context.ChangeDbUserPassword db un h).1 },
       ApplyResult.nil, (server.context.ChangeDbUserPassword db un h).2)
  | .SaveClusterAdminCommand u, server =>
      ({ server with context := server.context.SaveClusterAdmin u },
       ApplyResult.nil, none)
  | .AddPotentialServerCommand s, server =>
      ({ server with context := server.context.AddPotentialServer s },
       ApplyResult.nil, none)
  | .InfluxJoinCommand n cs _, server =>
      ({ server with peers := (addPeer server.peers n cs).1 },
       ApplyResult.bytes "join", (addPeer server.peers n cs).2)
  | .CreateShardsCommand specs, server =>
      match (server.context.AddShards specs).2.2 with
      | some e =>
          ({ server with context := (server.context.AddShards specs).1 },
           ApplyResult.nil, some e)
      | none =>
          ({ server with context := (server.context.AddShards specs).1 },
           ApplyResult.shards
             (((server.context.AddShards specs).2.1).map ShardData.ToNewShardData),
           none)
  | .DropShardCommand sid sids, server =>
      ({ server with context := (server.context.DropShard sid sids).1 },
       ApplyResult.nil, (server.context.DropShard sid sids).2)

/-- The prototype (zero-value) instances registered by `init()`, in source
order; the join command is not among them. -/
def initCommands : List Command :=
  [ .AddPotentialServerCommand ⟨0, "", ""⟩,
    .CreateDatabaseCommand "" 0,
    .DropDatabaseCommand "",
    .SaveDbUserCommand ⟨"", "", "", false⟩,
    .SaveClusterAdminCommand ⟨"", ""⟩,
    .ChangeDbUserPassword "" "" "",
    .CreateContinuousQueryCommand "" "",
    .DeleteContinuousQueryCommand "" 0,
    .SetContinuousQueryTimestampCommand 0,
    .CreateShardsCommand [],
    .DropShardCommand 0 [] ]

/-- The registry `internalRaftCommands` as `init()` builds it: each registered prototype
keyed by its own `CommandName()`. -/
def internalRaftCommands : List (String × Command) :=
  initCommands.map (fun c => (c.CommandName, c))

/-- Lookup in the registry by command name, the decode-time reconstruction
path. -/
def registryLookup (name : String) : Option Command :=
  (internalRaftCommands.find? (fun p => p.1 == name)).map Prod.snd

/-- Modelled from the spec: the structural (field-name-keyed) wire values
the default serialisation and the explicit JSON `Encode`/`Decode` pair of
`CreateShardsCommand` produce. -/
inductive Json where
  | null
  | bool (b : Bool)
  | str (s : String)
  | num (n : Int)
  | arr (xs : List Json)
  | obj (fields : List (String × Json))
deriving Repr

/-- Decoding of an unsigned integer field. -/
def decodeNat : Json → Option Nat
  | .num n => if 0 ≤ n then some n.toNat else none
  | _ => none

/-- Decoding of a list field, element by element, failing when any element
fails. -/
def decodeJList (d : Json → Option α) : List Json → Option (List α)
  | [] => some []
  | x :: xs =>
      match d x, decodeJList d xs with
      | some a, some as => some (a :: as)
      | _, _ => none

/-- Structural encoding of a list of unsigned integers. -/
def encodeNatList (xs : List Nat) : Json :=
  .arr (xs.map (fun (n : Nat) => Json.num (n : Int)))

/-- Structural decoding of a list of unsigned integers. -/
def decodeNatList : Json → Option (List Nat)
  | .arr xs => decodeJList decodeNat xs
  | _ => none

/-- Structural encoding of a per-database user payload. -/
def encodeDbUser (u : DbUser) : Json :=
  .obj [("name", .str u.name), ("db", .str u.db), ("hash", .str u.hash),
        ("isAdmin", .bool u.isAdmin)]

/-- Structural decoding of a per-database user payload. -/
def decodeDbUser : Json → Option DbUser
  | .obj [("name", .str n), ("db", .str d), ("hash", .str h),
          ("isAdmin", .bool a)] => some ⟨n, d, h, a⟩
  | _ => none

/-- Structural encoding of a cluster-administrator payload. -/
def encodeClusterAdmin (u : ClusterAdmin) : Json :=
  .obj [("name", .str u.name), ("hash", .str u.hash)]

/-- Structural decoding of a cluster-administrator payload. -/
def decodeClusterAdmin : Json → Option ClusterAdmin
  | .obj [("name", .str n), ("hash", .str h)] => some ⟨n, h⟩
  | _ => none

/-- Structural encoding of a server descriptor payload. -/
def encodeClusterServer (s : ClusterServer) : Json :=
  .obj [("Id", .num s.id), ("connectionString", .str s.connectionString),
        ("protobufConnectionString", .str s.protobufConnectionString)]

/-- Structural decoding of a server descriptor payload. -/
def decodeClusterServer : Json → Option ClusterServer
  | .obj [("Id", i), ("connectionString", .str cs),
          ("protobufConnectionString", .str pcs)] =>
      (decodeNat i).map (fun n => ⟨n, cs, pcs⟩)
  | _ => none

/-- Structural encoding of one new-shard descriptor. -/
def encodeNewShardData (sd : NewShardData) : Json :=
  .obj [("Id", .num sd.id), ("Database", .str sd.database),
        ("ServerIds", encodeNatList sd.serverIds)]

/-- Structural decoding of one new-shard descriptor. -/
def decodeNewShardData : Json → Option NewShardData
  | .obj [("Id", i), ("Database", .str db), ("ServerIds", sids)] =>
      match decodeNat i, decodeNatList sids with
      | some n, some l => some ⟨n, db, l⟩
      | _, _ => none
  | _ => none

/-- Encoding of every command: the structural field-name-keyed value of its
payload, the JSON field tags of the source preserved. -/
def Command.Encode : Command → Json
  | .SetContinuousQueryTimestampCommand ts => .obj [("timestamp", .num ts)]
  | .CreateContinuousQueryCommand db q =>
      .obj [("database", .str db), ("query", .str q)]
  | .DeleteContinuousQueryCommand db i =>
      .obj [("database", .str db), ("id", .num i)]
  | .DropDatabaseCommand n => .obj [("name", .str n)]
  | .CreateDatabaseCommand n rf =>
      .obj [("name", .str n), ("replicationFactor", .num rf)]
  | .SaveDbUserCommand u => .obj [("user", encodeDbUser u)]
  | .ChangeDbUserPassword db un h =>
      .obj [("Database", .str db), ("Username", .str un), ("Hash", .str h)]
  | .SaveClusterAdminCommand u => .obj [("user", encodeClusterAdmin u)]
  | .AddPotentialServerCommand s => .obj [("Server", encodeClusterServer s)]
  | .InfluxJoinCommand n cs pcs =>
      .obj [("name", .str n), ("connectionString", .str cs),
            ("protobufConnectionString", .str pcs)]
  | .CreateShardsCommand shards =>
      .obj [("Shards", .arr (shards.map encodeNewShardData))]
  | .DropShardCommand sid sids =>
      .obj [("ShardId", .num sid), ("ServerIds", encodeNatList sids)]

/-- Structural decoding of the continuous-query timestamp payload. -/
def decodeSetCQTimestamp : Json → Option Command
  | .obj [("timestamp", .num t)] => some (.SetContinuousQueryTimestampCommand t)
  | _ => none

/-- Structural decoding of the continuous-query creation payload. -/
def decodeCreateCQ : Json → Option Command
  | .obj [("database", .str db), ("query", .str q)] =>
      some (.CreateContinuousQueryCommand db q)
  | _ => none

/-- Structural decoding of the continuous-query deletion payload. -/
def decodeDeleteCQ : Json → Option Command
  | .obj [("database", .str db), ("id", i)] =>
      (decodeNat i).map (fun n => .DeleteContinuousQueryCommand db n)
  | _ => none

/-- Structural decoding of the database-drop payload. -/
def decodeDropDb : Json → Option Command
  | .obj [("name", .str n)] => some (.DropDatabaseCommand n)
  | _ => none

/-- Structural decoding of the database-creation payload. -/
def decodeCreateDb : Json → Option Command
  | .obj [("name", .str n), ("replicationFactor", rf)] =>
      (decodeNat rf).map (fun k => .CreateDatabaseCommand n k)
  | _ => none

/-- Structural decoding of the save-db-user payload. -/
def decodeSaveDbUser : Json → Option Command
  | .obj [("user", u)] => (decodeDbUser u).map (fun v => .SaveDbUserCommand v)
  | _ => none

/-- Structural decoding of the change-password payload. -/
def decodeChangePassword : Json → Option Command
  | .obj [("Database", .str db), ("Username", .str un), ("Hash", .str h)] =>
      some (.ChangeDbUserPassword db un h)
  | _ => none

/-- Structural decoding of the save-cluster-administrator payload. -/
def decodeSaveClusterAdmin : Json → Option Command
  | .obj [("user", u)] =>
      (decodeClusterAdmin u).map (fun v => .SaveClusterAdminCommand v)
  | _ => none

/-- Structural decoding of the add-server payload. -/
def decodeAddServer : Json → Option Command
  | .obj [("Server", s)] =>
      (decodeClusterServer s).map (fun v => .AddPotentialServerCommand v)
  | _ => none

/-- Structural decoding of the peer-join payload. -/
def decodeJoin : Json → Option Command
  | .obj [("name", .str n), ("connectionString", .str cs),
          ("protobufConnectionString", .str pcs)] =>
      some (.InfluxJoinCommand n cs pcs)
  | _ => none

/-- Structural decoding of the shard-creation payload. -/
def decodeCreateShards : Json → Option Command
  | .obj [("Shards", .arr xs)] =>
      (decodeJList decodeNewShardData xs).map (fun l => .CreateShardsCommand l)
  | _ => none

/-- Structural decoding of the shard-drop payload. -/
def decodeDropShard : Json → Option Command
  | .obj [("ShardId", sid), ("ServerIds", sids)] =>
      match decodeNat sid, decodeNatList sids with
      | some n, some l => some (.DropShardCommand n l)
      | _, _ => none
  | _ => none

/-- Decoding: the registry hands out the prototype for the stored command
name, and the prototype's concrete type reads the structural payload back
into a command value. -/
def decodeCommand (name : String) (j : Json) : Option Command :=
  if name == "set_cq_ts" then decodeSetCQTimestamp j
  else if name == "create_cq" then decodeCreateCQ j
  else if name == "delete_cq" then decodeDeleteCQ j
  else if name == "drop_db" then decodeDropDb j
  else if name == "create_db" then decodeCreateDb j
  else if name == "save_db_user" then decodeSaveDbUser j
  else if name == "change_db_user_password" then decodeChangePassword j
  else if name == "save_cluster_admin_user" then decodeSaveClusterAdmin j
  else if name == "add_server" then decodeAddServer j
  else if name == "raft:join" then decodeJoin j
  else if name == "create_shards" then decodeCreateShards j
  else if name == "drop_shard" then decodeDropShard j
  else none

/-- Holds exactly on the shard-creation command. -/
def Command.isCreateShards : Command → Bool
  | .CreateShardsCommand _ => true
  | _ => false

/-- Holds exactly on the peer-join command. -/
def Command.isJoin : Command → Bool
  | .InfluxJoinCommand _ _ _ => true
  | _ => false

/-- The one designated configuration-store mutation of each command, with
the command's own payload fields as arguments; the join command has none. -/
def Command.configEffect : Command → ClusterConfiguration →
    ClusterConfiguration × Option String
  | .SetContinuousQueryTimestampCommand ts, cc => cc.SetContinuousQueryTimestamp ts
  | .CreateContinuousQueryCommand db q, cc => cc.CreateContinuousQuery db q
  | .DeleteContinuousQueryCommand db i, cc => cc.DeleteContinuousQuery db i
  | .DropDatabaseCommand n, cc => cc.DropDatabase n
  | .CreateDatabaseCommand n rf, cc => cc.CreateDatabase n rf
  | .SaveDbUserCommand u, cc => (cc.SaveDbUser u, none)
  | .ChangeDbUserPassword db un h, cc => cc.ChangeDbUserPassword db un h
  | .SaveClusterAdminCommand u, cc => (cc.SaveClusterAdmin u, none)
  | .AddPotentialServerCommand s, cc => (cc.AddPotentialServer s, none)
  | .InfluxJoinCommand _ _ _, cc => (cc, none)
  | .CreateShardsCommand specs, cc =>
      ((cc.AddShards specs).1, (cc.AddShards specs).2.2)
  | .DropShardCommand sid sids, cc => cc.DropShard sid sids

/-- A concrete configuration used by the closed witness statements. -/
def cc0 : ClusterConfiguration :=
  { databases := [("metrics", 2)], dbUsers := [], clusterAdmins := [],
    servers := [⟨1, "h1:8090", "h1:8099"⟩], continuousQueries := [],
    cqTimestamp := 0, shards := [] }

/-- A concrete server state used by the closed witness statements. -/
def srvA : RaftServer := { name := "node-a", peers := [], context := cc0 }

/-- The same peer set and configuration as `srvA` under a different node
name. -/
def srvB : RaftServer := { name := "node-b", peers := [], context := cc0 }

lemma decodeNat_encode (n : Nat) : decodeNat (Json.num (n : Int)) = some n := by
  simp [decodeNat]

lemma decodeJList_encode_nat (xs : List Nat) :
    decodeJList decodeNat (xs.map (fun (n : Nat) => Json.num (n : Int))) = some xs := by
  induction xs with
  | nil => rfl
  | cons x xs ih =>
      rw [List.map_cons]
      simp only [decodeJList, decodeNat_encode, ih]

lemma decodeNatList_encode (xs : List Nat) :
    decodeNatList (encodeNatList xs) = some xs :=
  decodeJList_encode_nat xs

lemma decodeDbUser_encode (u : DbUser) : decodeDbUser (encodeDbUser u) = some u := by
  cases u
  rfl

lemma decodeClusterAdmin_encode (u : ClusterAdmin) :
    decodeClusterAdmin (encodeClusterAdmin u) = some u := by
  cases u
  rfl

lemma decodeClusterServer_encode (s : ClusterServer) :
    decodeClusterServer (encodeClusterServer s) = some s := by
  cases s
  simp [encodeClusterServer, decodeClusterServer, decodeNat_encode]

lemma decodeNewShardData_encode (sd : NewShardData) :
    decodeNewShardData (encodeNewShardData sd) = some sd := by
  cases sd
  simp [encodeNewShardData, decodeNewShardData, decodeNat_encode, decodeNatList_encode]

lemma decodeJList_encode_shard (xs : List NewShardData) :
    decodeJList decodeNewShardData (xs.map encodeNewShardData) = some xs := by
  induction xs with
  | nil => rfl
  | cons x xs ih =>
      rw [List.map_cons]
      simp only [decodeJList, decodeNewShardData_encode, ih]

lemma AddShards_error_unchanged (cc : ClusterConfiguration)
    (specs : List NewShardData) (e : String)
    (h : (cc.AddShards specs).2.2 = some e) : (cc.AddShards specs).1 = cc := by
  by_cases hc : (specs.any fun sp => !cc.databases.any fun d => d.1 == sp.database) = true
  · simp [ClusterConfiguration.AddShards, hc]
  · simp [ClusterConfiguration.AddShards, hc] at h

lemma AddShards_ok_appends (cc : ClusterConfiguration)
    (specs : List NewShardData)
    (h : (cc.AddShards specs).2.2 = none) :
    (cc.AddShards specs).1.shards = cc.shards ++ (cc.AddShards specs).2.1 ∧
    (cc.AddShards specs).2.1.length = specs.length := by
  by_cases hc : (specs.any fun sp => !cc.databases.any fun d => d.1 == sp.database) = true
  · simp [ClusterConfiguration.AddShards, hc] at h
  · simp [ClusterConfiguration.AddShards, hc]

/-- C1: `Apply` is deterministic — on two server states holding equal
configuration state and equal consensus peer sets, the same command yields
equal resulting configurations, equal peer sets and equal (result, error)
values, with no dependence on the node's own name. -/
theorem Apply_deterministic (c : Command) (s1 s2 : RaftServer)
    (hctx : s1.context = s2.context) (hpeers : s1.peers = s2.peers) :
    (c.Apply s1).1.context = (c.Apply s2).1.context ∧
    (c.Apply s1).1.peers = (c.Apply s2).1.peers ∧
    (c.Apply s1).2 = (c.Apply s2).2 := by
  cases c <;> simp [Command.Apply, hctx, hpeers]
  rename_i specs
  cases h : (s2.context.AddShards specs).2.2 <;> simp [h]

/-- Witness for C1: two servers with different names but the same
configuration and peers produce the same outcome for a concrete
database-creation command. -/
theorem Apply_deterministic_witness :
    ((Command.CreateDatabaseCommand "db0" 2).Apply srvA).1.context =
      ((Command.CreateDatabaseCommand "db0" 2).Apply srvB).1.context ∧
    ((Command.CreateDatabaseCommand "db0" 2).Apply srvA).1.peers =
      ((Command.CreateDatabaseCommand "db0" 2).Apply srvB).1.peers ∧
    ((Command.CreateDatabaseCommand "db0" 2).Apply srvA).2 =
      ((Command.CreateDatabaseCommand "db0" 2).Apply srvB).2 :=
  Apply_deterministic (Command.CreateDatabaseCommand "db0" 2) srvA srvB rfl rfl

/-- C2: `CommandName()` of each of the 12 command types is exactly its
listed literal string, and the 12 strings are pairwise distinct. -/
theorem commandName_stable :
    (∀ n rf, (Command.CreateDatabaseCommand n rf).CommandName = "create_db") ∧
    (∀ n, (Command.DropDatabaseCommand n).CommandName = "drop_db") ∧
    (∀ u, (Command.SaveDbUserCommand u).CommandName = "save_db_user") ∧
    (∀ db un h,
      (Command.ChangeDbUserPassword db un h).CommandName = "change_db_user_password") ∧
    (∀ u, (Command.SaveClusterAdminCommand u).CommandName = "save_cluster_admin_user") ∧
    (∀ sv, (Command.AddPotentialServerCommand sv).CommandName = "add_server") ∧
    (∀ db q, (Command.CreateContinuousQueryCommand db q).CommandName = "create_cq") ∧
    (∀ db i, (Command.DeleteContinuousQueryCommand db i).CommandName = "delete_cq") ∧
    (∀ ts, (Command.SetContinuousQueryTimestampCommand ts).CommandName = "set_cq_ts") ∧
    (∀ sh, (Command.CreateShardsCommand sh).CommandName = "create_shards") ∧
    (∀ sid sids, (Command.DropShardCommand sid sids).CommandName = "drop_shard") ∧
    (∀ n cs p, (Command.InfluxJoinCommand n cs p).CommandName = "raft:join") ∧
    ["create_db", "drop_db", "save_db_user", "change_db_user_password",
     "save_cluster_admin_user", "add_server", "create_cq", "delete_cq",
     "set_cq_ts", "create_shards", "drop_shard", "raft:join"].Nodup :=
  ⟨fun _ _ => rfl, fun _ => rfl, fun _ => rfl, fun _ _ _ => rfl, fun _ => rfl,
   fun _ => rfl, fun _ _ => rfl, fun _ _ => rfl, fun _ => rfl, fun _ => rfl,
   fun _ _ => rfl, fun _ _ _ => rfl, by decide⟩

/-- C3 counterexample: after `init()` the registry has no entry for the
peer-join command name `raft:join`. -/
theorem raftJoin_not_in_registry : registryLookup "raft:join" = none := by
  decide

/-- C3 (amended): after `init()` the registry holds exactly the 11 metadata
command types, each name mapped to a prototype of its own concrete type;
the peer-join command `raft:join` is not registered. -/
theorem registry_contents :
    registryLookup "create_db" = some (Command.CreateDatabaseCommand "" 0) ∧
    registryLookup "drop_db" = some (Command.DropDatabaseCommand "") ∧
    registryLookup "save_db_user" = some (Command.SaveDbUserCommand ⟨"", "", "", false⟩) ∧
    registryLookup "change_db_user_password" = some (Command.ChangeDbUserPassword "" "" "") ∧
    registryLookup "save_cluster_admin_user" = some (Command.SaveClusterAdminCommand ⟨"", ""⟩) ∧
    registryLookup "add_server" = some (Command.AddPotentialServerCommand ⟨0, "", ""⟩) ∧
    registryLookup "create_cq" = some (Command.CreateContinuousQueryCommand "" "") ∧
    registryLookup "delete_cq" = some (Command.DeleteContinuousQueryCommand "" 0) ∧
    registryLookup "set_cq_ts" = some (Command.SetContinuousQueryTimestampCommand 0) ∧
    registryLookup "create_shards" = some (Command.CreateShardsCommand []) ∧
    registryLookup "drop_shard" = some (Command.DropShardCommand 0 []) ∧
    registryLookup "raft:join" = none ∧
    internalRaftCommands.length = 11 := by
  decide

/-- C4 counterexample: the peer-join command is not shard creation, yet its
`Apply` returns the non-nil result `[]byte("join")`. -/
theorem join_result_not_nil :
    (Command.InfluxJoinCommand "n1" "c1" "p1").isCreateShards = false ∧
    ((Command.InfluxJoinCommand "n1" "c1" "p1").Apply srvA).2.1 =
      ApplyResult.bytes "join" ∧
    ApplyResult.bytes "join" ≠ ApplyResult.nil := by
  refine ⟨rfl, rfl, by decide⟩

/-- C4 (amended): every command type other than shard creation and the
peer-join command returns a nil result from `Apply`; shard creation returns
the resolved shard descriptors on success (nil on failure), and the
peer-join command returns the byte string "join". -/
theorem apply_result_classification (c : Command) (s : RaftServer) :
    (c.isCreateShards = false → c.isJoin = false →
      (c.Apply s).2.1 = ApplyResult.nil) ∧
    (∀ n cs p, ((Command.InfluxJoinCommand n cs p).Apply s).2.1 =
      ApplyResult.bytes "join") ∧
    (∀ specs e, (s.context.AddShards specs).2.2 = some e →
      ((Command.CreateShardsCommand specs).Apply s).2.1 = ApplyResult.nil) ∧
    (∀ specs, (s.context.AddShards specs).2.2 = none →
      ((Command.CreateShardsCommand specs).Apply s).2.1 =
        ApplyResult.shards
          (((s.context.AddShards specs).2.1).map ShardData.ToNewShardData)) := by
  refine ⟨?_, fun n cs p => rfl, ?_, ?_⟩
  · intro h1 h2
    cases c <;> simp_all [Command.isCreateShards, Command.isJoin, Command.Apply]
  · intro specs e h
    simp [Command.Apply, h]
  · intro specs h
    simp [Command.Apply, h]

/-- C5: each parameter-only metadata command invokes its single
configuration-store mutation method with exactly its own payload fields and
returns a nil result together with exactly the error value that method
produced. -/
theorem apply_returns_mutation_error (s : RaftServer) :
    (∀ n rf, (Command.CreateDatabaseCommand n rf).Apply s =
      ({ s with context := (s.context.CreateDatabase n rf).1 }, ApplyResult.nil,
       (s.context.CreateDatabase n rf).2)) ∧
    (∀ n, (Command.DropDatabaseCommand n).Apply s =
      ({ s with context := (s.context.DropDatabase n).1 }, ApplyResult.nil,
       (s.context.DropDatabase n).2)) ∧
    (∀ db un h, (Command.ChangeDbUserPassword db un h).Apply s =
      ({ s with context := (s.context.ChangeDbUserPassword db un h).1 }, ApplyResult.nil,
       (s.context.ChangeDbUserPassword db un h).2)) ∧
    (∀ db q, (Command.CreateContinuousQueryCommand db q).Apply s =
      ({ s with context := (s.context.CreateContinuousQuery db q).1 }, ApplyResult.nil,
       (s.context.CreateContinuousQuery db q).2)) ∧
    (∀ db i, (Command.DeleteContinuousQueryCommand db i).Apply s =
      ({ s with context := (s.context.DeleteContinuousQuery db i).1 }, ApplyResult.nil,
       (s.context.DeleteContinuousQuery db i).2)) ∧
    (∀ ts, (Command.SetContinuousQueryTimestampCommand ts).Apply s =
      ({ s with context := (s.context.SetContinuousQueryTimestamp ts).1 }, ApplyResult.nil,
       (s.context.SetContinuousQueryTimestamp ts).2)) ∧
    (∀ sid sids, (Command.DropShardCommand sid sids).Apply s =
      ({ s with context := (s.context.DropShard sid sids).1 }, ApplyResult.nil,
       (s.context.DropShard sid sids).2)) :=
  ⟨fun _ _ => rfl, fun _ => rfl, fun _ _ _ => rfl, fun _ _ => rfl,
   fun _ _ => rfl, fun _ => rfl, fun _ _ => rfl⟩

/-- C6: decoding the structural encoding of any command value under its own
command name reconstructs the command field for field, for every payload
including zero-value and maximum-size payloads. -/
theorem decode_encode_roundtrip (c : Command) :
    decodeCommand c.CommandName c.Encode = some c := by
  cases c <;>
    simp [Command.CommandName, Command.Encode, decodeCommand,
          decodeSetCQTimestamp, decodeCreateCQ, decodeDeleteCQ, decodeDropDb,
          decodeCreateDb, decodeSaveDbUser, decodeChangePassword,
          decodeSaveClusterAdmin, decodeAddServer, decodeJoin,
          decodeCreateShards, decodeDropShard, decodeNat_encode,
          decodeNatList_encode, decodeDbUser_encode, decodeClusterAdmin_encode,
          decodeClusterServer_encode, decodeJList_encode_shard]

/-- C7: when `AddShards` fails, shard creation returns a nil result with
that error and the configuration is left exactly as it was (all-or-nothing);
when it succeeds, `Apply` returns the created shards converted through
`ToNewShardData` in order with a nil error, and the configuration gains
exactly the requested number of shards. -/
theorem createShards_apply_atomic (s : RaftServer) (specs : List NewShardData) :
    (∀ e, (s.context.AddShards specs).2.2 = some e →
      (Command.CreateShardsCommand specs).Apply s =
        ({ s with context := (s.context.AddShards specs).1 }, ApplyResult.nil, some e) ∧
      (s.context.AddShards specs).1 = s.context) ∧
    ((s.context.AddShards specs).2.2 = none →
      (Command.CreateShardsCommand specs).Apply s =
        ({ s with context := (s.context.AddShards specs).1 },
         ApplyResult.shards (((s.context.AddShards specs).2.1).map ShardData.ToNewShardData),
         none) ∧
      (s.context.AddShards specs).1.shards =
        s.context.shards ++ (s.context.AddShards specs).2.1 ∧
      (s.context.AddShards specs).2.1.length = specs.length) := by
  constructor
  · intro e h
    exact ⟨by simp [Command.Apply, h], AddShards_error_unchanged s.context specs e h⟩
  · intro h
    refine ⟨by simp [Command.Apply, h], ?_, ?_⟩
    · exact (AddShards_ok_appends s.context specs h).1
    · exact (AddShards_ok_appends s.context specs h).2

/-- C8: the peer-join command never reads or mutates the configuration
object — its applied context is unchanged and its outcome is independent of
the configuration; its only effect is one `AddPeer` call with the command's
own `Name` and `ConnectionString`, whose error it returns; and no other
command type changes the consensus peer set. -/
theorem join_apply_consensus_only (s : RaftServer) (n cs p : String) :
    ((Command.InfluxJoinCommand n cs p).Apply s).1.context = s.context ∧
    (∀ cc1 cc2 : ClusterConfiguration,
      ((Command.InfluxJoinCommand n cs p).Apply { s with context := cc1 }).1.peers =
        ((Command.InfluxJoinCommand n cs p).Apply { s with context := cc2 }).1.peers ∧
      ((Command.InfluxJoinCommand n cs p).Apply { s with context := cc1 }).2 =
        ((Command.InfluxJoinCommand n cs p).Apply { s with context := cc2 }).2) ∧
    ((Command.InfluxJoinCommand n cs p).Apply s).1.peers = (addPeer s.peers n cs).1 ∧
    ((Command.InfluxJoinCommand n cs p).Apply s).2.2 = (addPeer s.peers n cs).2 ∧
    ((Command.InfluxJoinCommand n cs p).Apply s).2.1 = ApplyResult.bytes "join" ∧
    (∀ c : Command, c.isJoin = false → (c.Apply s).1.peers = s.peers) := by
  refine ⟨rfl, fun cc1 cc2 => ⟨rfl, rfl⟩, rfl, rfl, rfl, ?_⟩
  intro c hc
  cases c <;> simp_all [Command.Apply, Command.isJoin]
  rename_i specs
  cases h : (s.context.AddShards specs).2.2 <;> simp [h]

/-- C9: every metadata command mutates state only through its one designated
configuration-store mutation: the resulting context is exactly that method's
output, its error is that method's error, and the consensus peer set and
node name are untouched. -/
theorem metadata_apply_frame (c : Command) (s : RaftServer)
    (hj : c.isJoin = false) :
    (c.Apply s).1.context = (c.configEffect s.context).1 ∧
    (c.Apply s).2.2 = (c.configEffect s.context).2 ∧
    (c.Apply s).1.peers = s.peers ∧
    (c.Apply s).1.name = s.name := by
  cases c <;> simp_all [Command.Apply, Command.configEffect, Command.isJoin]
  rename_i specs
  cases h : (s.context.AddShards specs).2.2 <;> simp [h]

/-- Witness for C9: the frame property at a concrete drop-database command
on a concrete server state. -/
theorem metadata_apply_frame_witness :
    ((Command.DropDatabaseCommand "metrics").Apply srvA).1.context =
      ((Command.DropDatabaseCommand "metrics").configEffect srvA.context).1 ∧
    ((Command.DropDatabaseCommand "metrics").Apply srvA).2.2 =
      ((Command.DropDatabaseCommand "metrics").configEffect srvA.context).2 ∧
    ((Command.DropDatabaseCommand "metrics").Apply srvA).1.peers = srvA.peers ∧
    ((Command.DropDatabaseCommand "metrics").Apply srvA).1.name = srvA.name :=
  metadata_apply_frame (Command.DropDatabaseCommand "metrics") srvA rfl

/-- C10: the three save/register commands capture no error from their
mutation methods and return `(nil, nil)` unconditionally, for every payload
and every configuration state. -/
theorem save_commands_never_error (s : RaftServer) :
    (∀ u, ((Command.SaveDbUserCommand u).Apply s).2 = (ApplyResult.nil, none) ∧
      ((Command.SaveDbUserCommand u).Apply s).1.context = s.context.SaveDbUser u) ∧
    (∀ u, ((Command.SaveClusterAdminCommand u).Apply s).2 = (ApplyResult.nil, none) ∧
      ((Command.SaveClusterAdminCommand u).Apply s).1.context =
        s.context.SaveClusterAdmin u) ∧
    (∀ sv, ((Command.AddPotentialServerCommand sv).Apply s).2 = (ApplyResult.nil, none) ∧
      ((Command.AddPotentialServerCommand sv).Apply s).1.context =
        s.context.AddPotentialServer sv) :=
  ⟨fun _ => ⟨rfl, rfl⟩, fun _ => ⟨rfl, rfl⟩, fun _ => ⟨rfl, rfl⟩⟩

end Coordinator
